import Mathlib

/-!
Verification of the tracing-instrumentation core of the
cascadiajs-lightning-observability repository.

The applications under src/ call into the OpenTelemetry core through a
small operation set (startSpan, end, setAttribute, addEvent,
recordException, setStatus, Counter.add, Histogram.record) and configure
a SimpleSpanProcessor and a BatchSpanProcessor.  The core itself (span
state machine, context propagation, batching export pipeline, instrument
aggregation) is not part of the repository sources, so it is modelled
here from the specification; the request handlers and the processor
configurations are embedded directly from the repository sources.
-/

namespace Otel

/-- Modelled from the spec (section 3): SpanContext is the immutable
value-like record of traceId, spanId and optional parentSpanId.
Identifiers are modelled as natural numbers drawn from a monotone
generator. -/
structure SpanContext where
  traceId : Nat
  spanId : Nat
  parentSpanId : Option Nat
  deriving DecidableEq

/-- Modelled from the spec (section 3): span kind is metadata only and
does not alter control flow. -/
inductive SpanKind
  | server
  | client
  | internal
  | producer
  | consumer
  deriving DecidableEq

/-- Modelled from the spec (section 3): status is UNSET, OK or ERROR
with an optional message. -/
inductive SpanStatus
  | unset
  | ok
  | error (message : String)
  deriving DecidableEq

/-- Modelled from the spec (section 3): an event is a named entry of the
ordered, append-only event log, carrying attributes. -/
structure SpanEvent where
  name : String
  attrs : List (String × String)
  deriving DecidableEq

/-- Modelled from the spec (sections 3 and 4.2): a Span is one timed
operation node, mutable until ended.  The field onEndCount counts the
onEnd notifications delivered to the owning SpanProcessor, so that the
exactly-once delivery property can be stated. -/
structure Span where
  name : String
  kind : SpanKind
  sctx : SpanContext
  attributes : List (String × String)
  events : List SpanEvent
  status : SpanStatus
  ended : Bool
  onEndCount : Nat
  deriving DecidableEq

/-- Modelled from the spec (section 4.2): setAttribute is ACTIVE only
and a silent no-op once the span is ENDED.  Writes are appended; reads
resolve last-write-wins. -/
def Span.setAttribute (s : Span) (k v : String) : Span :=
  if s.ended then s else { s with attributes := s.attributes ++ [(k, v)] }

/-- Modelled from the spec (section 4.2): addEvent appends to the
ordered event log and is ignored once the span is ENDED. -/
def Span.addEvent (s : Span) (e : SpanEvent) : Span :=
  if s.ended then s else { s with events := s.events ++ [e] }

/-- Modelled from the spec (sections 4.2 and 8): the single event that
recordException appends, carrying the error type and message. -/
def exceptionEvent (errType errMsg : String) : SpanEvent :=
  ⟨"exception", [("exception.type", errType), ("exception.message", errMsg)]⟩

/-- Modelled from the spec (sections 4.2 and 8): recordException appends
exactly one event carrying the error kind and message and sets the span
status to ERROR with that message (the policy fixed by the testable
property in section 8, and matched by every catch block in src, which
pairs recordException with setStatus ERROR). -/
def Span.recordException (s : Span) (errType errMsg : String) : Span :=
  if s.ended then s
  else { s with
    events := s.events ++ [exceptionEvent errType errMsg],
    status := SpanStatus.error errMsg }

/-- Modelled from the spec (section 4.2): setStatus is idempotent and
the last call before end wins; ignored once ENDED. -/
def Span.setStatus (s : Span) (st : SpanStatus) : Span :=
  if s.ended then s else { s with status := st }

/-- Modelled from the spec (section 4.2): end transitions to ENDED and
invokes the owning SpanProcessor onEnd hook exactly once; a second call
is a no-op.  Named endSpan because end is a keyword. -/
def Span.endSpan (s : Span) : Span :=
  if s.ended then s
  else { s with ended := true, onEndCount := s.onEndCount + 1 }

/-- Modelled from the spec (sections 3 and 4.1): a Context is an
immutable snapshot whose sole semantically significant field is the
active SpanContext, if any. -/
structure Context where
  activeSpan : Option SpanContext
  deriving DecidableEq

/-- Modelled from the spec (section 4.1): the empty Context, carrying no
active span. -/
def Context.empty : Context := ⟨none⟩

namespace Trace

/-- Modelled from the spec (section 4.1): trace.setSpan returns a new
Context in which the given span is marked active, without mutating the
original. -/
def setSpan (_ctx : Context) (s : Span) : Context :=
  ⟨some s.sctx⟩

end Trace

namespace Tracer

/-- Modelled from the spec (sections 4.1 and 4.3): startSpan generates a
fresh SpanId from the monotone generator; with no active span in the
supplied Context it also mints a fresh traceId and no parent, otherwise
it inherits the traceId and sets parentSpanId from the active span.  The
result pairs the new span with the advanced generator. -/
def startSpan (gen : Nat) (nm : String) (k : SpanKind) (parentCtx : Context) :
    Span × Nat :=
  match parentCtx.activeSpan with
  | some p =>
      ({ name := nm, kind := k,
         sctx := { traceId := p.traceId, spanId := gen, parentSpanId := some p.spanId },
         attributes := [], events := [], status := SpanStatus.unset,
         ended := false, onEndCount := 0 }, gen + 1)
  | none =>
      ({ name := nm, kind := k,
         sctx := { traceId := gen, spanId := gen + 1, parentSpanId := none },
         attributes := [], events := [], status := SpanStatus.unset,
         ended := false, onEndCount := 0 }, gen + 2)

end Tracer

/-- Outcome of the Elasticsearch search performed inside getTodos: the
request either succeeds with a number of todos or throws an error with a
type and a message. -/
inductive FetchOutcome
  | success (todoCount : Nat)
  | failure (errType errMsg : String)
  deriving DecidableEq

/-- Final states of the three spans involved in one execution of the
GET /get_todos handler: the HTTP span and the business-logic todo span
started by the handler itself, and the Elasticsearch span started by the
getTodos helper it calls. -/
structure GetTodosHandlerResult where
  httpSpan : Span
  todoSpan : Span
  esSpan : Span
  deriving DecidableEq

/-- Embedded from src/manual-instrumentation/index.js lines 88 to 135
(the async function getTodos): it starts the elasticsearch.get_todos
span, runs the search, and on success sets result attributes and status
OK while on error it records the exception and sets status ERROR; in
both cases the span is ended in the finally block.  Console logging and
wall-clock timing are elided; dynamic attribute values are rendered with
toString. -/
def getTodosFn (gen : Nat) (ambient : Context) (outcome : FetchOutcome) :
    Span × Nat :=
  let p := Tracer.startSpan gen "elasticsearch.get_todos" SpanKind.client ambient
  let span := p.1
  let span := span.setAttribute "elasticsearch.index" "todos"
  let span := span.setAttribute "operation.type" "search"
  match outcome with
  | FetchOutcome.success n =>
      let span := span.setAttribute "elasticsearch.results.total" (toString n)
      let span := span.setAttribute "todos.count" (toString n)
      let span := span.setStatus SpanStatus.ok
      (span.endSpan, p.2)
  | FetchOutcome.failure et em =>
      let span := span.recordException et em
      let span := span.setStatus (SpanStatus.error em)
      (span.endSpan, p.2)

/-- Embedded from src/manual-instrumentation/index.js lines 230 to 302
(the GET /get_todos handler; src/unnamed/part_001 lines 332 to 405 has
the same control flow).  The handler starts httpSpan, then inside the
try block derives a context with trace.setSpan, starts todoSpan, and
awaits getTodos under context.with.  On success it sets attributes and
statuses and calls todoSpan.end at the end of the try block; the catch
block records the exception on httpSpan only, and the finally block ends
httpSpan on both paths.  todoSpan.end is NOT reached on the error path.
Console logging and wall-clock timing are elided. -/
def getTodosHandler (gen : Nat) (activeContext : Context)
    (outcome : FetchOutcome) : GetTodosHandlerResult :=
  let ph := Tracer.startSpan gen "http.get.get_todos" SpanKind.server activeContext
  let httpSpan := ph.1
  let httpSpan := httpSpan.setAttribute "http.method" "GET"
  let httpSpan := httpSpan.setAttribute "http.route" "/get_todos"
  let httpSpanContext := Trace.setSpan activeContext httpSpan
  let pt := Tracer.startSpan ph.2 "todo.action.get_all" SpanKind.internal httpSpanContext
  let todoSpan := pt.1
  let todoSpan := todoSpan.setAttribute "action.type" "read"
  let todoSpan := todoSpan.setAttribute "action.name" "get_all_todos"
  let todoSpan := todoSpan.setAttribute "user.operation" "list_todos"
  let todoSpan := todoSpan.addEvent ⟨"Starting todo retrieval operation", []⟩
  let todoSpanActiveContext := Trace.setSpan httpSpanContext todoSpan
  let pes := getTodosFn pt.2 todoSpanActiveContext outcome
  let esSpan := pes.1
  match outcome with
  | FetchOutcome.success n =>
      let todoSpan := todoSpan.setAttribute "todos.retrieved.count" (toString n)
      let todoSpan := todoSpan.setAttribute "operation.success" "true"
      let todoSpan := todoSpan.setAttribute "operation.duration_ms" "0"
      let todoSpan := todoSpan.addEvent
        ⟨"Todo retrieval completed",
         [("todos.count", toString n), ("operation.result", "success")]⟩
      let httpSpan := httpSpan.setAttribute "response.todos.count" (toString n)
      let httpSpan := httpSpan.setAttribute "business.operation" "get_all_todos"
      let todoSpan := todoSpan.setStatus SpanStatus.ok
      let httpSpan := httpSpan.setStatus SpanStatus.ok
      let todoSpan := todoSpan.endSpan
      let httpSpan := httpSpan.endSpan
      ⟨httpSpan, todoSpan, esSpan⟩
  | FetchOutcome.failure et em =>
      let httpSpan := httpSpan.recordException et em
      let httpSpan := httpSpan.setStatus (SpanStatus.error em)
      let httpSpan := httpSpan.endSpan
      ⟨httpSpan, todoSpan, esSpan⟩

/-- Configuration surface of the Batching span processor, per the spec
(section 6): queue capacity, flush trigger and size cap, timer trigger
interval and per-flush deadline. -/
structure BatchConfig where
  maxQueueSize : Nat
  maxExportBatchSize : Nat
  scheduledDelayMillis : Nat
  exportTimeoutMillis : Nat
  deriving DecidableEq

/-- Embedded from src/unnamed/part_003 lines 41 to 45: the
BatchSpanProcessor options of the manual-instrumentation pipeline
(maxExportBatchSize 5, exportTimeoutMillis 3000, scheduledDelayMillis
500).  maxQueueSize is not set there and keeps the SDK default 2048. -/
def manualBatchConfig : BatchConfig :=
  { maxQueueSize := 2048, maxExportBatchSize := 5,
    scheduledDelayMillis := 500, exportTimeoutMillis := 3000 }

/-- Embedded from src/hybrid-instrumentation/tracing.js lines 27 to 31:
the BatchSpanProcessor options of the hybrid pipeline
(maxExportBatchSize 10, exportTimeoutMillis 5000, scheduledDelayMillis
1000).  maxQueueSize is not set there and keeps the SDK default 2048. -/
def hybridBatchConfig : BatchConfig :=
  { maxQueueSize := 2048, maxExportBatchSize := 10,
    scheduledDelayMillis := 1000, exportTimeoutMillis := 5000 }

/-- Modelled from the spec (section 4.4): the observable state of one
Batching span processor instance — its bounded queue of ended spans, the
dropped-span counter, the sequence of batches handed to
exporter.export, whether the periodic timer is running, whether the
processor has been shut down, and whether exporter.shutdown has been
called.  Spans are treated opaquely, hence the type parameter. -/
structure BatchState (α : Type) where
  queue : List α
  dropped : Nat
  exported : List (List α)
  timerActive : Bool
  isShutdown : Bool
  exporterShutdown : Bool

/-- Modelled from the spec (section 4.4): onEnd enqueues the ended span
without blocking; at capacity the newest (incoming) span is dropped and
the drop counter increments; after shutdown onEnd is a no-op that counts
and drops any late span. -/
def BatchState.onEnd (cfg : BatchConfig) (st : BatchState α) (sp : α) :
    BatchState α :=
  if st.isShutdown then { st with dropped := st.dropped + 1 }
  else if cfg.maxQueueSize ≤ st.queue.length then
    { st with dropped := st.dropped + 1 }
  else { st with queue := st.queue ++ [sp] }

/-- Modelled from the spec (section 4.4): one flush dequeues up to
maxExportBatchSize spans from the front of the queue and hands them to
exporter.export as one batch; with an empty queue the trigger is a
no-op and no batch is exported. -/
def BatchState.flushOnce (cfg : BatchConfig) (st : BatchState α) :
    BatchState α :=
  if st.queue.isEmpty then st
  else { st with
    queue := st.queue.drop cfg.maxExportBatchSize,
    exported := st.exported ++ [st.queue.take cfg.maxExportBatchSize] }

/-- Chops a list into consecutive batches of at most n elements, used to
model the final drain performed by shutdown. -/
def chunkBatches (n : Nat) (l : List α) : List (List α) :=
  if l.isEmpty then []
  else if n = 0 then [l]
  else l.take n :: chunkBatches n (l.drop n)
termination_by l.length
decreasing_by
  rename_i hne hn
  have hl : l ≠ [] := by simpa [List.isEmpty_iff] using hne
  have hpos : 0 < l.length := List.length_pos.mpr hl
  simp only [List.length_drop]
  omega

/-- Modelled from the spec (section 4.4): shutdown stops the periodic
timer, performs one final forced flush draining whatever remains (in
batches of at most maxExportBatchSize), calls exporter.shutdown, and
marks the processor shut down so that onEnd becomes a counting no-op. -/
def BatchState.shutdown (cfg : BatchConfig) (st : BatchState α) :
    BatchState α :=
  if st.isShutdown then st
  else
    { queue := [], dropped := st.dropped,
      exported := st.exported ++ chunkBatches cfg.maxExportBatchSize st.queue,
      timerActive := false, isShutdown := true, exporterShutdown := true }

/-- State of the manual-instrumentation export pipeline, embedded from
src/unnamed/part_003 lines 36 to 46: provider.addSpanProcessor is called
first with a SimpleSpanProcessor and then with a BatchSpanProcessor,
both constructed over the same OTLP exporter.  exporterLog is the
sequence of batches that single shared exporter receives; batchQueue and
batchDropped are the Batching processor queue and drop counter. -/
structure ManualPipeline (α : Type) where
  exporterLog : List (List α)
  batchQueue : List α
  batchDropped : Nat

/-- Modelled from the spec (section 4.4) over the registration embedded
from src/unnamed/part_003: when a span ends, the provider notifies both
registered processors.  The Simple processor synchronously calls
exporter.export with the singleton batch; the Batching processor
enqueues the span (dropping the newest at capacity). -/
def ManualPipeline.onEnd (cfg : BatchConfig) (p : ManualPipeline α)
    (sp : α) : ManualPipeline α :=
  let log := p.exporterLog ++ [[sp]]
  if cfg.maxQueueSize ≤ p.batchQueue.length then
    { exporterLog := log, batchQueue := p.batchQueue,
      batchDropped := p.batchDropped + 1 }
  else
    { exporterLog := log, batchQueue := p.batchQueue ++ [sp],
      batchDropped := p.batchDropped }

/-- Modelled from the spec (section 4.4): a flush of the Batching
processor of the manual pipeline hands the next batch of up to
maxExportBatchSize queued spans to the shared exporter. -/
def ManualPipeline.flush (cfg : BatchConfig) (p : ManualPipeline α) :
    ManualPipeline α :=
  if p.batchQueue.isEmpty then p
  else
    { exporterLog := p.exporterLog ++ [p.batchQueue.take cfg.maxExportBatchSize],
      batchQueue := p.batchQueue.drop cfg.maxExportBatchSize,
      batchDropped := p.batchDropped }

/-- Total number of deliveries of the span sp to the exporter, summed
over all batches the exporter has received. -/
def ManualPipeline.deliveries [DecidableEq α] (p : ManualPipeline α)
    (sp : α) : Nat :=
  (p.exporterLog.map (fun b => b.count sp)).sum

/-- A label set as written at the call sites in src/unnamed/part_001
(for example todoCounter.add on lines 245 to 248): a list of key/value
pairs in insertion order. -/
abbrev LabelList := List (String × String)

/-- Modelled from the spec (section 4.6): the total order used to
canonicalize label sets — pairs compare by key and then by value. -/
def labelLe (a b : String × String) : Bool :=
  decide (a.1 < b.1 ∨ (a.1 = b.1 ∧ a.2 ≤ b.2))

/-- Modelled from the spec (section 4.6): canonicalization of a label
set, made order-independent by sorting the pairs. -/
def canonicalize (ls : LabelList) : LabelList :=
  ls.mergeSort labelLe

/-- Modelled from the spec (sections 3 and 4.6): a Counter holds a
mapping from canonicalized label set to the accumulated sum. -/
structure Counter where
  buckets : LabelList → Int

/-- Modelled from the spec (section 4.6): Counter.add accumulates a
nonnegative delta into the bucket of the canonicalized label set; a
negative delta is a usage error and is ignored. -/
def Counter.add (c : Counter) (delta : Int) (ls : LabelList) : Counter :=
  if delta < 0 then c
  else
    ⟨fun k =>
      if k = canonicalize ls then c.buckets k + delta else c.buckets k⟩

/-! Helper lemmas -/

theorem labelLe_total (a b : String × String) : labelLe a b || labelLe b a := by
  simp only [labelLe, Bool.or_eq_true, decide_eq_true_eq]
  rcases lt_trichotomy a.1 b.1 with h | h | h
  · exact Or.inl (Or.inl h)
  · rcases le_total a.2 b.2 with h2 | h2
    · exact Or.inl (Or.inr ⟨h, h2⟩)
    · exact Or.inr (Or.inr ⟨h.symm, h2⟩)
  · exact Or.inr (Or.inl h)

theorem labelLe_trans (a b c : String × String) :
    labelLe a b → labelLe b c → labelLe a c := by
  simp only [labelLe, decide_eq_true_eq]
  rintro (h1 | ⟨h1, h1v⟩) (h2 | ⟨h2, h2v⟩)
  · exact Or.inl (h1.trans h2)
  · exact Or.inl (h2 ▸ h1)
  · exact Or.inl (h1 ▸ h2)
  · exact Or.inr ⟨h1.trans h2, h1v.trans h2v⟩

theorem labelLe_antisymm (a b : String × String) :
    labelLe a b → labelLe b a → a = b := by
  simp only [labelLe, decide_eq_true_eq]
  rintro (h1 | ⟨h1, h1v⟩) (h2 | ⟨h2, h2v⟩)
  · exact absurd h2 (lt_asymm h1)
  · exact absurd h1 (h2 ▸ lt_irrefl _)
  · exact absurd h2 (h1 ▸ lt_irrefl _)
  · exact Prod.ext h1 (le_antisymm h1v h2v)

theorem canonicalize_perm_eq {l1 l2 : LabelList} (h : l1.Perm l2) :
    canonicalize l1 = canonicalize l2 := by
  have hs1 := @List.sorted_mergeSort _ labelLe
    (fun a b c => labelLe_trans a b c) (fun a b => labelLe_total a b) l1
  have hs2 := @List.sorted_mergeSort _ labelLe
    (fun a b c => labelLe_trans a b c) (fun a b => labelLe_total a b) l2
  have hp : (l1.mergeSort labelLe).Perm (l2.mergeSort labelLe) :=
    (List.mergeSort_perm l1 labelLe).trans
      (h.trans (List.mergeSort_perm l2 labelLe).symm)
  exact @List.eq_of_perm_of_sorted _ (fun a b => labelLe a b = true)
    ⟨labelLe_antisymm⟩ _ _ hp hs1 hs2

theorem chunkBatches_eq_single {α : Type} (n : Nat) (l : List α)
    (hne : l ≠ []) (hlen : l.length ≤ n) (hn : 0 < n) :
    chunkBatches n l = [l] := by
  rw [chunkBatches]
  rw [if_neg (by simp [List.isEmpty_iff, hne]), if_neg (by omega)]
  rw [List.take_of_length_le hlen, List.drop_eq_nil_of_le hlen]
  rw [chunkBatches]
  simp

/-! Claim theorems -/

/-- C1: the Batching processor queue length never exceeds the configured
maxQueueSize; when onEnd arrives with the queue at capacity (and the
processor not shut down), the incoming newest span is dropped — the
queue is unchanged — and the dropped-span counter increments.  The
enqueuing caller is never blocked: onEnd is a total state function. -/
theorem batch_onEnd_bounded_drop_newest {α : Type} (cfg : BatchConfig)
    (st : BatchState α) (sp : α)
    (hq : st.queue.length ≤ cfg.maxQueueSize) :
    (st.onEnd cfg sp).queue.length ≤ cfg.maxQueueSize ∧
    (st.isShutdown = false → st.queue.length = cfg.maxQueueSize →
      (st.onEnd cfg sp).queue = st.queue ∧
      (st.onEnd cfg sp).dropped = st.dropped + 1) := by
  unfold BatchState.onEnd
  split_ifs with h1 h2
  · exact ⟨hq, fun hf _ => by rw [hf] at h1; cases h1⟩
  · exact ⟨hq, fun _ _ => ⟨rfl, rfl⟩⟩
  · refine ⟨?_, fun _ heq => absurd (heq ▸ le_refl _) h2⟩
    simp only [List.length_append, List.length_cons, List.length_nil]
    omega

/-- C1 witness: a queue at capacity 2 drops the incoming span. -/
theorem batch_onEnd_bounded_drop_newest_witness :
    (([0, 1] : List Nat).length ≤ 2) ∧
    ((((⟨[0, 1], 0, [], true, false, false⟩ : BatchState Nat).onEnd
        ⟨2, 1, 0, 0⟩ 5).queue.length ≤ 2) ∧
     ((false : Bool) = false → ([0, 1] : List Nat).length = 2 →
      (((⟨[0, 1], 0, [], true, false, false⟩ : BatchState Nat).onEnd
          ⟨2, 1, 0, 0⟩ 5).queue = [0, 1] ∧
       ((⟨[0, 1], 0, [], true, false, false⟩ : BatchState Nat).onEnd
          ⟨2, 1, 0, 0⟩ 5).dropped = 0 + 1))) :=
  ⟨by decide,
   batch_onEnd_bounded_drop_newest ⟨2, 1, 0, 0⟩
     ⟨[0, 1], 0, [], true, false, false⟩ 5 (by decide)⟩

/-- C2: the spec claims every span a handler starts is ended exactly
once on every execution path; the GET /get_todos handler violates this
on its error path, where the catch block ends only httpSpan and
todoSpan.end is never reached, so todoSpan stays un-ended with zero
onEnd notifications (while the success path does end it once). -/
theorem get_todos_error_path_leaks_todo_span :
    (getTodosHandler 0 Context.empty
      (FetchOutcome.failure "Error" "boom")).todoSpan.ended = false ∧
    (getTodosHandler 0 Context.empty
      (FetchOutcome.failure "Error" "boom")).todoSpan.onEndCount = 0 ∧
    (getTodosHandler 0 Context.empty
      (FetchOutcome.failure "Error" "boom")).httpSpan.onEndCount = 1 ∧
    (getTodosHandler 0 Context.empty
      (FetchOutcome.failure "Error" "boom")).esSpan.onEndCount = 1 ∧
    (getTodosHandler 0 Context.empty
      (FetchOutcome.success 2)).todoSpan.onEndCount = 1 :=
  ⟨rfl, rfl, rfl, rfl, rfl⟩

/-- C3: starting a parent span and then a child span under a Context in
which the parent is set active yields a child whose traceId equals the
parent traceId and whose parentSpanId equals the parent spanId. -/
theorem child_span_inherits_parent_trace (g : Nat) (n1 n2 : String)
    (k1 k2 : SpanKind) (ctx base : Context) :
    ((Tracer.startSpan (Tracer.startSpan g n1 k1 ctx).2 n2 k2
        (Trace.setSpan base (Tracer.startSpan g n1 k1 ctx).1)).1.sctx.traceId
      = (Tracer.startSpan g n1 k1 ctx).1.sctx.traceId) ∧
    ((Tracer.startSpan (Tracer.startSpan g n1 k1 ctx).2 n2 k2
        (Trace.setSpan base (Tracer.startSpan g n1 k1 ctx).1)).1.sctx.parentSpanId
      = some (Tracer.startSpan g n1 k1 ctx).1.sctx.spanId) := by
  cases h : ctx.activeSpan <;> simp [Tracer.startSpan, Trace.setSpan, h]

/-- C4: with an empty Context the new span has no parent and a freshly
minted traceId (taken from the generator, so a subsequent root span gets
a different traceId); with a Context carrying an active span, the new
span inherits its traceId and takes parentSpanId from its spanId. -/
theorem startSpan_parent_context_contract (g : Nat) (nm nm2 : String)
    (k k2 : SpanKind) (ctx : Context) (p : SpanContext) :
    ((Tracer.startSpan g nm k Context.empty).1.sctx.parentSpanId = none ∧
     (Tracer.startSpan g nm k Context.empty).1.sctx.traceId = g ∧
     (Tracer.startSpan (Tracer.startSpan g nm k Context.empty).2 nm2 k2
        Context.empty).1.sctx.traceId ≠
       (Tracer.startSpan g nm k Context.empty).1.sctx.traceId) ∧
    (ctx.activeSpan = some p →
      (Tracer.startSpan g nm k ctx).1.sctx.traceId = p.traceId ∧
      (Tracer.startSpan g nm k ctx).1.sctx.parentSpanId = some p.spanId) := by
  refine ⟨⟨rfl, rfl, ?_⟩, ?_⟩
  · simp [Tracer.startSpan, Context.empty]
  · intro h
    simp [Tracer.startSpan, h]

/-- C4 witness: under a Context whose active span has traceId 3 and
spanId 4, the new span inherits traceId 3 and parentSpanId 4. -/
theorem startSpan_parent_context_contract_witness :
    ((⟨some ⟨3, 4, none⟩⟩ : Context).activeSpan = some ⟨3, 4, none⟩) ∧
    ((Tracer.startSpan 0 "a" SpanKind.server
        (⟨some ⟨3, 4, none⟩⟩ : Context)).1.sctx.traceId = 3 ∧
     (Tracer.startSpan 0 "a" SpanKind.server
        (⟨some ⟨3, 4, none⟩⟩ : Context)).1.sctx.parentSpanId = some 4) :=
  ⟨rfl,
   (startSpan_parent_context_contract 0 "a" "b" SpanKind.server
     SpanKind.server ⟨some ⟨3, 4, none⟩⟩ ⟨3, 4, none⟩).2 rfl⟩

/-- C5: a flush triggered by size (maxExportBatchSize spans available)
exports one batch of exactly maxExportBatchSize spans; a flush triggered
by the timer with a nonempty queue exports one batch of between 1 and
maxExportBatchSize spans; a timer tick with an empty queue exports no
batch at all. -/
theorem flush_batch_size_contract {α : Type} (cfg : BatchConfig)
    (st : BatchState α) (hn : 0 < cfg.maxExportBatchSize) :
    (cfg.maxExportBatchSize ≤ st.queue.length →
      (st.flushOnce cfg).exported
        = st.exported ++ [st.queue.take cfg.maxExportBatchSize] ∧
      (st.queue.take cfg.maxExportBatchSize).length = cfg.maxExportBatchSize) ∧
    (0 < st.queue.length →
      (st.flushOnce cfg).exported
        = st.exported ++ [st.queue.take cfg.maxExportBatchSize] ∧
      1 ≤ (st.queue.take cfg.maxExportBatchSize).length ∧
      (st.queue.take cfg.maxExportBatchSize).length ≤ cfg.maxExportBatchSize) ∧
    (st.queue.length = 0 → (st.flushOnce cfg).exported = st.exported) := by
  unfold BatchState.flushOnce
  refine ⟨?_, ?_, ?_⟩
  · intro h
    have hpos : 0 < st.queue.length := lt_of_lt_of_le hn h
    rw [if_neg (by simp [List.isEmpty_iff]; exact List.length_pos.mp hpos)]
    refine ⟨rfl, ?_⟩
    rw [List.length_take]
    omega
  · intro hpos
    rw [if_neg (by simp [List.isEmpty_iff]; exact List.length_pos.mp hpos)]
    refine ⟨rfl, ?_, ?_⟩ <;> rw [List.length_take] <;> omega
  · intro h
    have hq : st.queue = [] := List.length_eq_zero.mp h
    rw [if_pos (by simp [hq])]

/-- C5 witness: with the hybrid configuration (maxExportBatchSize 10)
and 12 queued spans, a size-triggered flush exports exactly 10. -/
theorem flush_batch_size_contract_witness :
    (0 < hybridBatchConfig.maxExportBatchSize) ∧
    (hybridBatchConfig.maxExportBatchSize ≤ (List.range 12).length) ∧
    (((⟨List.range 12, 0, [], true, false, false⟩ : BatchState Nat).flushOnce
        hybridBatchConfig).exported
      = [] ++ [(List.range 12).take hybridBatchConfig.maxExportBatchSize] ∧
     ((List.range 12).take hybridBatchConfig.maxExportBatchSize).length
      = hybridBatchConfig.maxExportBatchSize) :=
  ⟨by decide, by decide,
   (flush_batch_size_contract hybridBatchConfig
     ⟨List.range 12, 0, [], true, false, false⟩ (by decide)).1 (by decide)⟩

/-- C6: shutting down a Batching processor holding exactly 3 queued
spans (with maxExportBatchSize at least 3) exports exactly one final
batch consisting of those 3 spans, stops the periodic timer, calls
exporter.shutdown, and afterwards treats onEnd as a no-op that drops and
counts any late span. -/
theorem shutdown_drains_three_span_queue {α : Type} (cfg : BatchConfig)
    (st : BatchState α) (h3 : st.queue.length = 3)
    (hle : 3 ≤ cfg.maxExportBatchSize) (hs : st.isShutdown = false) :
    (st.shutdown cfg).exported = st.exported ++ [st.queue] ∧
    (st.shutdown cfg).timerActive = false ∧
    (st.shutdown cfg).exporterShutdown = true ∧
    (st.shutdown cfg).isShutdown = true ∧
    ∀ sp : α, ((st.shutdown cfg).onEnd cfg sp).queue = [] ∧
      ((st.shutdown cfg).onEnd cfg sp).dropped = st.dropped + 1 := by
  have hne : st.queue ≠ [] := by
    intro hq; rw [hq] at h3; simp at h3
  have hchunk := chunkBatches_eq_single cfg.maxExportBatchSize st.queue hne
    (by omega) (by omega)
  unfold BatchState.shutdown
  rw [if_neg (by simp [hs])]
  refine ⟨by rw [hchunk], rfl, rfl, rfl, fun sp => ?_⟩
  unfold BatchState.onEnd
  exact ⟨rfl, rfl⟩

/-- C6 witness: shutdown with the queue holding spans 1, 2, 3 under the
hybrid configuration exports the single batch with those 3 spans. -/
theorem shutdown_drains_three_span_queue_witness :
    (([1, 2, 3] : List Nat).length = 3) ∧
    (3 ≤ hybridBatchConfig.maxExportBatchSize) ∧
    (((⟨[1, 2, 3], 0, [], true, false, false⟩ : BatchState Nat).shutdown
        hybridBatchConfig).exported = [] ++ [[1, 2, 3]] ∧
     ((⟨[1, 2, 3], 0, [], true, false, false⟩ : BatchState Nat).shutdown
        hybridBatchConfig).timerActive = false ∧
     ((⟨[1, 2, 3], 0, [], true, false, false⟩ : BatchState Nat).shutdown
        hybridBatchConfig).exporterShutdown = true ∧
     ((⟨[1, 2, 3], 0, [], true, false, false⟩ : BatchState Nat).shutdown
        hybridBatchConfig).isShutdown = true ∧
     ((((⟨[1, 2, 3], 0, [], true, false, false⟩ : BatchState Nat).shutdown
        hybridBatchConfig).onEnd hybridBatchConfig 9).queue = [] ∧
      (((⟨[1, 2, 3], 0, [], true, false, false⟩ : BatchState Nat).shutdown
        hybridBatchConfig).onEnd hybridBatchConfig 9).dropped = 0 + 1)) :=
  ⟨by decide, by decide,
   (fun h => ⟨h.1, h.2.1, h.2.2.1, h.2.2.2.1, h.2.2.2.2 9⟩)
     (shutdown_drains_three_span_queue hybridBatchConfig
       ⟨[1, 2, 3], 0, [], true, false, false⟩ (by decide) (by decide) rfl)⟩

/-- C7: on a span that has not been ended, recordException appends
exactly one event carrying the error type and message and sets the span
status to ERROR with that message. -/
theorem recordException_one_event_error_status (s : Span) (et em : String)
    (h : s.ended = false) :
    (s.recordException et em).events = s.events ++ [exceptionEvent et em] ∧
    (s.recordException et em).events.length = s.events.length + 1 ∧
    (s.recordException et em).status = SpanStatus.error em := by
  simp [Span.recordException, h]

/-- C7 witness: recordException on a freshly started span appends the
one exception event and sets status ERROR. -/
theorem recordException_one_event_error_status_witness :
    ((Tracer.startSpan 0 "elasticsearch.get_todos" SpanKind.client
        Context.empty).1.ended = false) ∧
    (((Tracer.startSpan 0 "elasticsearch.get_todos" SpanKind.client
        Context.empty).1.recordException "ResponseError"
          "index_not_found_exception").events
      = (Tracer.startSpan 0 "elasticsearch.get_todos" SpanKind.client
          Context.empty).1.events
        ++ [exceptionEvent "ResponseError" "index_not_found_exception"] ∧
     ((Tracer.startSpan 0 "elasticsearch.get_todos" SpanKind.client
        Context.empty).1.recordException "ResponseError"
          "index_not_found_exception").events.length
      = (Tracer.startSpan 0 "elasticsearch.get_todos" SpanKind.client
          Context.empty).1.events.length + 1 ∧
     ((Tracer.startSpan 0 "elasticsearch.get_todos" SpanKind.client
        Context.empty).1.recordException "ResponseError"
          "index_not_found_exception").status
      = SpanStatus.error "index_not_found_exception") :=
  ⟨rfl,
   recordException_one_event_error_status
     (Tracer.startSpan 0 "elasticsearch.get_todos" SpanKind.client
       Context.empty).1 "ResponseError" "index_not_found_exception" rfl⟩

/-- C8: trace.setSpan is a pure derivation: it returns the new Context
with the given span active; deriving again from the derived context
yields another fresh value; and the original Context remains usable for
further derivations — in this functional model a Context is a value, so
the original cannot be mutated by any derivation. -/
theorem setSpan_derives_new_context (ctx : Context) (s1 s2 : Span) :
    Trace.setSpan ctx s1 = ⟨some s1.sctx⟩ ∧
    Trace.setSpan (Trace.setSpan ctx s1) s2 = ⟨some s2.sctx⟩ ∧
    Trace.setSpan ctx s2 = ⟨some s2.sctx⟩ :=
  ⟨rfl, rfl, rfl⟩

/-- C9: two label sets built from the same key/value pairs in different
insertion orders canonicalize identically, so Counter.add accumulates
both into the same bucket. -/
theorem counter_label_order_blind (c : Counter) (d1 d2 : Int)
    (l1 l2 : LabelList) (hperm : l1.Perm l2) (h1 : 0 ≤ d1) (h2 : 0 ≤ d2) :
    canonicalize l1 = canonicalize l2 ∧
    ((c.add d1 l1).add d2 l2).buckets (canonicalize l1)
      = c.buckets (canonicalize l1) + d1 + d2 := by
  have hc := canonicalize_perm_eq hperm
  refine ⟨hc, ?_⟩
  simp [Counter.add, not_lt.mpr h1, not_lt.mpr h2, hc]

/-- C9 witness: the label set written at the todoCounter.add call site
and its reversal accumulate into the same bucket. -/
theorem counter_label_order_blind_witness :
    (([("operation", "create"), ("title_length", "1")] : LabelList).Perm
      [("title_length", "1"), ("operation", "create")]) ∧
    ((0 : Int) ≤ 1) ∧
    (canonicalize [("operation", "create"), ("title_length", "1")]
      = canonicalize [("title_length", "1"), ("operation", "create")] ∧
     (((⟨fun _ => 0⟩ : Counter).add 1
          [("operation", "create"), ("title_length", "1")]).add 1
          [("title_length", "1"), ("operation", "create")]).buckets
        (canonicalize [("operation", "create"), ("title_length", "1")])
      = (⟨fun _ => 0⟩ : Counter).buckets
          (canonicalize [("operation", "create"), ("title_length", "1")])
        + 1 + 1) :=
  ⟨by decide, by decide,
   counter_label_order_blind ⟨fun _ => 0⟩ 1 1
     [("operation", "create"), ("title_length", "1")]
     [("title_length", "1"), ("operation", "create")]
     (by decide) (by decide) (by decide)⟩

/-- C10: in the manual-instrumentation pipeline, where a Simple and a
Batching processor are registered over the same OTLP exporter, a span
that ends (with room in the batching queue) is delivered to the
exporter twice: once immediately as the singleton batch exported by the
Simple processor, and once inside the batch produced by the next flush
of the Batching processor. -/
theorem manual_pipeline_double_delivery {α : Type} [DecidableEq α]
    (p : ManualPipeline α) (sp : α) (h0 : p.deliveries sp = 0)
    (hq : sp ∉ p.batchQueue)
    (hlen : p.batchQueue.length < manualBatchConfig.maxExportBatchSize) :
    ((p.onEnd manualBatchConfig sp).flush manualBatchConfig).exporterLog
      = p.exporterLog ++ [[sp]] ++ [p.batchQueue ++ [sp]] ∧
    ((p.onEnd manualBatchConfig sp).flush manualBatchConfig).deliveries sp
      = 2 := by
  have hlen5 : p.batchQueue.length < 5 := by
    simpa [manualBatchConfig] using hlen
  have hcap : ¬ manualBatchConfig.maxQueueSize ≤ p.batchQueue.length := by
    simp [manualBatchConfig]; omega
  unfold ManualPipeline.onEnd
  rw [if_neg hcap]
  unfold ManualPipeline.flush
  rw [if_neg (by simp)]
  have htake : (p.batchQueue ++ [sp]).take manualBatchConfig.maxExportBatchSize
      = p.batchQueue ++ [sp] := by
    apply List.take_of_length_le
    simp [manualBatchConfig]
    omega
  refine ⟨by rw [htake], ?_⟩
  unfold ManualPipeline.deliveries at h0 ⊢
  rw [htake]
  simp only [List.map_append, List.sum_append, List.map_cons, List.map_nil,
    List.sum_cons, List.sum_nil, h0]
  rw [List.count_append, List.count_eq_zero_of_not_mem hq]
  simp

/-- C10 witness: with an empty batching queue, ending span 7 and then
flushing delivers span 7 to the exporter exactly twice. -/
theorem manual_pipeline_double_delivery_witness :
    ((⟨[], [], 0⟩ : ManualPipeline Nat).deliveries 7 = 0) ∧
    (7 ∉ ([] : List Nat)) ∧
    (([] : List Nat).length < manualBatchConfig.maxExportBatchSize) ∧
    ((((⟨[], [], 0⟩ : ManualPipeline Nat).onEnd manualBatchConfig 7).flush
        manualBatchConfig).exporterLog = [] ++ [[7]] ++ [[] ++ [7]] ∧
     (((⟨[], [], 0⟩ : ManualPipeline Nat).onEnd manualBatchConfig 7).flush
        manualBatchConfig).deliveries 7 = 2) :=
  ⟨by decide, by decide, by decide,
   manual_pipeline_double_delivery ⟨[], [], 0⟩ 7 (by decide) (by decide)
     (by decide)⟩

end Otel
